import Mathlib

/-!
Shallow embedding of `src/texar/modules/decoders/rnn_decoder_base.py`
(class `RNNDecoderBase`).

The module is a thin adapter around an external deep-learning framework:
it wraps an RNN cell and an output projection layer, validates its
constructor arguments, and delegates multi-step decoding to the
framework's `dynamic_decode` loop.  Framework objects (cells, layers,
helpers, tensors, cell states) are opaque to the module, so they are
embedded as inductive types whose constructors record how the object was
obtained; framework calls the module merely forwards to
(`cell.zero_state`, `dynamic_decode`) are embedded as uninterpreted
functions that record their arguments.  Python exceptions are embedded
with `Except`.
-/

namespace Texar

/-- Tensor dtypes, as far as the module distinguishes them. -/
inductive DType
  | float32
  | int32
  | other (id : Nat)
deriving DecidableEq, Repr

/-- Opaque value of the "rnn_cell" hyperparameter section (its structure is
defined in `texar.core.layers`, outside this module). -/
structure RnnCellHP where
  id : Nat
deriving DecidableEq, Repr

/-- Opaque value of a helper hyperparameter section. -/
structure HelperHP where
  id : Nat
deriving DecidableEq, Repr

/-- An RNN cell object: either one supplied by the caller, or one built by
`layers.get_rnn_cell` from the "rnn_cell" hyperparameters. -/
inductive RNNCell
  | external (id : Nat)
  | fromHParams (hp : RnnCellHP)
deriving DecidableEq, Repr

/-- Modelled from the spec: `layers.get_rnn_cell` lives in `texar.core.layers`,
which is not part of this module; the spec treats cell construction as opaque
("RNN cell: a recurrent unit..."), so the function is embedded as the
uninterpreted constructor recording the hyperparameters it was given. -/
def layers.get_rnn_cell (hparams : RnnCellHP) : RNNCell :=
  RNNCell.fromHParams hparams

/-- A cell state object: either supplied by the caller, or the result of a
`cell.zero_state(batch_size, dtype)` call. -/
inductive CellState
  | external (id : Nat)
  | zeroStateOf (cell : RNNCell) (batch_size : Nat) (dtype : DType)
deriving DecidableEq, Repr

/-- Modelled from the spec: `cell.zero_state` is a method of the external
framework's cell object, opaque to this module; it is embedded as the
uninterpreted constructor recording the cell and its arguments. -/
def RNNCell.zero_state (cell : RNNCell) (batch_size : Nat) (dtype : DType) :
    CellState :=
  CellState.zeroStateOf cell batch_size dtype

/-- A candidate output-layer object: `tf.identity`, a `tf.layers.Dense`
instance (with its `units` argument), some other `tf.layers.Layer` instance,
or an object that is none of these. -/
inductive OutputLayer
  | identity
  | dense (units : Nat)
  | otherLayer (id : Nat)
  | nonLayer (id : Nat)
deriving DecidableEq, Repr

/-- `isinstance(x, tf.layers.Layer)`: `Dense` is a `Layer` subclass;
`tf.identity` is a function, not a `Layer`. -/
def OutputLayer.isLayerInstance : OutputLayer → Bool
  | OutputLayer.dense _ => true
  | OutputLayer.otherLayer _ => true
  | _ => false

/-- A decoding helper object, opaque except for its `batch_size` attribute. -/
structure Helper where
  id : Nat
  batch_size : Nat
deriving DecidableEq, Repr

/-- The effective hyperparameters of an `RNNDecoderBase`, with the fields its
`default_hparams` lists. -/
structure DecoderHParams where
  rnn_cell : RnnCellHP
  helper_train : HelperHP
  helper_infer : HelperHP
  max_decoding_length_train : Option Nat
  max_decoding_length_infer : Option Nat
  name : String
deriving DecidableEq, Repr

/-- The Python exceptions the module can raise. -/
inductive PyError
  | valueError (msg : String)
  | attributeError
  | notImplementedError
deriving DecidableEq, Repr

/-- The state of an `RNNDecoderBase` instance: its private attributes as set
by `__init__` and `_build`.  `_built` is the `ModuleBase` flag consulted at
the end of `_build`. -/
structure RNNDecoderBase where
  _hparams : DecoderHParams
  _cell : RNNCell
  _vocab_size : Option Nat
  _output_layer : OutputLayer
  _helper : Option Helper
  _initial_state : Option CellState
  _built : Bool
deriving DecidableEq, Repr

/-- `RNNDecoderBase.__init__(cell, vocab_size, output_layer, hparams)`.
`ModuleBase.__init__` (outside this module) stores the effective
hyperparameters; here they arrive already merged as `hparams`.  The body
mirrors the source: pick the cell (the given one, else
`layers.get_rnn_cell(hparams.rnn_cell)`), then build or validate the output
layer, raising `ValueError` when both `output_layer` and `vocab_size` are
`None`, or when a given `output_layer` is neither `tf.identity` nor a
`tf.layers.Layer` instance. -/
def RNNDecoderBase.init (cell : Option RNNCell) (vocab_size : Option Nat)
    (output_layer : Option OutputLayer) (hparams : DecoderHParams) :
    Except PyError RNNDecoderBase :=
  let theCell : RNNCell :=
    match cell with
    | some c => c
    | none => layers.get_rnn_cell hparams.rnn_cell
  match output_layer with
  | none =>
    match vocab_size with
    | none =>
      Except.error (PyError.valueError
        "Either `output_layer` or `vocab_size` must be provided. Set `output_layer=tf.identity` if no output layer is wanted.")
    | some v =>
      Except.ok
        { _hparams := hparams, _cell := theCell, _vocab_size := some v,
          _output_layer := OutputLayer.dense v, _helper := none,
          _initial_state := none, _built := false }
  | some ol =>
    if ol = OutputLayer.identity then
      Except.ok
        { _hparams := hparams, _cell := theCell, _vocab_size := vocab_size,
          _output_layer := ol, _helper := none,
          _initial_state := none, _built := false }
    else if ol.isLayerInstance then
      Except.ok
        { _hparams := hparams, _cell := theCell, _vocab_size := vocab_size,
          _output_layer := ol, _helper := none,
          _initial_state := none, _built := false }
    else
      Except.error (PyError.valueError
        "`output_layer` must be either `tf.identity` or an instance of `tf.layers.Layer`.")

/-- A hyperparameter value as it appears in the `default_hparams` dictionary.
The three opaque constructors stand for the dictionaries built by
`layers.default_rnn_cell_hparams()` and the two helper-default functions,
which live outside this module. -/
inductive HValue
  | pyNone
  | str (s : String)
  | rnnCellDefault
  | helperTrainDefault
  | helperInferDefault
deriving DecidableEq, Repr

/-- Modelled from the spec: `layers.default_rnn_cell_hparams()` is defined in
`texar.core.layers`, outside this module; embedded as an opaque value. -/
def layers.default_rnn_cell_hparams : HValue :=
  HValue.rnnCellDefault

/-- Modelled from the spec: defined in `rnn_decoder_helpers`, outside this
module; embedded as an opaque value. -/
def rnn_decoder_helpers.default_helper_train_hparams : HValue :=
  HValue.helperTrainDefault

/-- Modelled from the spec: defined in `rnn_decoder_helpers`, outside this
module; embedded as an opaque value. -/
def rnn_decoder_helpers.default_helper_infer_hparams : HValue :=
  HValue.helperInferDefault

/-- `RNNDecoderBase.default_hparams()`: the dictionary literal of the source,
as an association list in the order of the literal. -/
def RNNDecoderBase.default_hparams : List (String × HValue) :=
  [("rnn_cell", layers.default_rnn_cell_hparams),
   ("helper_train", rnn_decoder_helpers.default_helper_train_hparams),
   ("helper_infer", rnn_decoder_helpers.default_helper_infer_hparams),
   ("max_decoding_length_train", HValue.pyNone),
   ("max_decoding_length_infer", HValue.pyNone),
   ("name", HValue.str "rnn_decoder")]

/-- Modelled from the spec: `utils.MAX_SEQ_LENGTH` is a constant of
`texar.utils.utils`, outside this module; the spec only requires it to be a
fixed finite maximum length, so it is embedded as a fixed natural number. -/
def utils.MAX_SEQ_LENGTH : Nat :=
  2147483647

/-- The `outputs` object returned by `dynamic_decode`, recording the call. -/
inductive DDOutputs
  | fromDecode (decoder : RNNDecoderBase) (maximum_iterations : Nat)
deriving DecidableEq, Repr

/-- The `final_state` object returned by `dynamic_decode`. -/
inductive DDFinalState
  | fromDecode (decoder : RNNDecoderBase) (maximum_iterations : Nat)
deriving DecidableEq, Repr

/-- The `sequence_lengths` tensor returned by `dynamic_decode`. -/
inductive DDSequenceLengths
  | fromDecode (decoder : RNNDecoderBase) (maximum_iterations : Nat)
deriving DecidableEq, Repr

/-- Modelled from the spec: the "dynamic decode loop" is "the external
framework's generic iteration driver"; it is embedded as an uninterpreted
function whose results record the `decoder` and `maximum_iterations`
arguments it was called with. -/
def dynamic_decode (decoder : RNNDecoderBase) (maximum_iterations : Nat) :
    DDOutputs × DDFinalState × DDSequenceLengths :=
  (DDOutputs.fromDecode decoder maximum_iterations,
   DDFinalState.fromDecode decoder maximum_iterations,
   DDSequenceLengths.fromDecode decoder maximum_iterations)

/-- The `maximum_iterations` argument recorded in a `dynamic_decode` result. -/
def DDOutputs.maximum_iterations : DDOutputs → Nat
  | DDOutputs.fromDecode _ n => n

/-- The `decoder` argument recorded in a `dynamic_decode` result. -/
def DDOutputs.decoderArg : DDOutputs → RNNDecoderBase
  | DDOutputs.fromDecode d _ => d

/-- The `cell` property: returns `self._cell`. -/
def RNNDecoderBase.cell (d : RNNDecoderBase) : RNNCell :=
  d._cell

/-- `RNNDecoderBase.zero_state(batch_size, dtype)`: delegates to
`self._cell.zero_state`. -/
def RNNDecoderBase.zero_state (d : RNNDecoderBase) (batch_size : Nat)
    (dtype : DType) : CellState :=
  RNNCell.zero_state d._cell batch_size dtype

/-- The `batch_size` property: `self._helper.batch_size`.  When `_helper` is
still `None` (no `_build` call yet), the attribute access raises
`AttributeError`. -/
def RNNDecoderBase.batch_size (d : RNNDecoderBase) : Except PyError Nat :=
  match d._helper with
  | none => Except.error PyError.attributeError
  | some h => Except.ok h.batch_size

/-- The tail of `_build` after `_helper` and `_initial_state` are set:
compute the train/infer maximum decoding lengths (defaulting to
`utils.MAX_SEQ_LENGTH`), select one with `tf.cond` on
`context.global_mode_train()` (passed in as `global_mode_train`), call
`dynamic_decode(decoder=self, maximum_iterations=...)`, set `_built`, and
return the triple. -/
def RNNDecoderBase.buildTail (d : RNNDecoderBase) (global_mode_train : Bool) :
    Except PyError
      (RNNDecoderBase × (DDOutputs × DDFinalState × DDSequenceLengths)) :=
  let max_decoding_length_train : Nat :=
    match d._hparams.max_decoding_length_train with
    | none => utils.MAX_SEQ_LENGTH
    | some n => n
  let max_decoding_length_infer : Nat :=
    match d._hparams.max_decoding_length_infer with
    | none => utils.MAX_SEQ_LENGTH
    | some n => n
  let max_decoding_length : Nat :=
    if global_mode_train then max_decoding_length_train
    else max_decoding_length_infer
  let r := dynamic_decode d max_decoding_length
  let dFinal : RNNDecoderBase :=
    if d._built then d else { d with _built := true }
  Except.ok (dFinal, r)

/-- `RNNDecoderBase._build(helper, initial_state)`, with the global mode read
from `context.global_mode_train()` passed in as `global_mode_train`.  Stores
the helper; stores `initial_state` when given, else
`self.zero_state(self.batch_size, tf.float32)`; then proceeds as
`buildTail`. -/
def RNNDecoderBase.build (d : RNNDecoderBase) (helper : Helper)
    (initial_state : Option CellState) (global_mode_train : Bool) :
    Except PyError
      (RNNDecoderBase × (DDOutputs × DDFinalState × DDSequenceLengths)) :=
  let d1 : RNNDecoderBase := { d with _helper := some helper }
  match initial_state with
  | some s =>
    RNNDecoderBase.buildTail { d1 with _initial_state := some s }
      global_mode_train
  | none =>
    match RNNDecoderBase.batch_size d1 with
    | Except.error e => Except.error e
    | Except.ok b =>
      RNNDecoderBase.buildTail
        { d1 with
          _initial_state :=
            some (RNNDecoderBase.zero_state d1 b DType.float32) }
        global_mode_train

/-- The `output_size` property: the base class raises
`NotImplementedError`. -/
def RNNDecoderBase.output_size (_d : RNNDecoderBase) : Except PyError Nat :=
  Except.error PyError.notImplementedError

/-- The `output_dtype` property: the base class raises
`NotImplementedError`. -/
def RNNDecoderBase.output_dtype (_d : RNNDecoderBase) : Except PyError DType :=
  Except.error PyError.notImplementedError

/-- `RNNDecoderBase.initialize(name)`: the base class raises
`NotImplementedError`. -/
def RNNDecoderBase.initialize (_d : RNNDecoderBase) (_name : Option String) :
    Except PyError Unit :=
  Except.error PyError.notImplementedError

/-- `RNNDecoderBase.step(time, inputs, state, name)`: the base class raises
`NotImplementedError`. -/
def RNNDecoderBase.step (_d : RNNDecoderBase) (_time : Nat) (_inputs : Nat)
    (_state : CellState) (_name : Option String) : Except PyError Unit :=
  Except.error PyError.notImplementedError

/-- `RNNDecoderBase.finalize(outputs, final_state, sequence_lengths)`: the
base class raises `NotImplementedError`. -/
def RNNDecoderBase.finalize (_d : RNNDecoderBase) (_outputs : DDOutputs)
    (_final_state : DDFinalState) (_sequence_lengths : DDSequenceLengths) :
    Except PyError Unit :=
  Except.error PyError.notImplementedError

/-- A sample effective hyperparameter value, used by concrete witnesses. -/
def hp0 : DecoderHParams :=
  { rnn_cell := { id := 0 }, helper_train := { id := 0 },
    helper_infer := { id := 0 }, max_decoding_length_train := none,
    max_decoding_length_infer := none, name := "rnn_decoder" }

/-- A sample decoder state, as produced by a successful `init`, used by
concrete witnesses. -/
def d0 : RNNDecoderBase :=
  { _hparams := hp0, _cell := RNNCell.external 0, _vocab_size := some 7,
    _output_layer := OutputLayer.dense 7, _helper := none,
    _initial_state := none, _built := false }

/-- A sample helper with batch size 4, used by concrete witnesses. -/
def helper0 : Helper :=
  { id := 0, batch_size := 4 }

/-- The decoder state passed to `dynamic_decode` when `d0.build helper0 none`
runs: helper stored, zero initial state stored, used by concrete
witnesses. -/
def d2w : RNNDecoderBase :=
  { _hparams := hp0, _cell := RNNCell.external 0, _vocab_size := some 7,
    _output_layer := OutputLayer.dense 7, _helper := some helper0,
    _initial_state :=
      some (CellState.zeroStateOf (RNNCell.external 0) 4 DType.float32),
    _built := false }

/-- C1: constructing with both `output_layer` and `vocab_size` equal to
`None` raises a `ValueError`; for every call where at least one of the two
is provided, and any provided `output_layer` is valid, the constructor
succeeds without an error. -/
theorem C1_init_requires_output_layer_or_vocab :
    (∀ cell hparams,
      RNNDecoderBase.init cell none none hparams =
        Except.error (PyError.valueError
          "Either `output_layer` or `vocab_size` must be provided. Set `output_layer=tf.identity` if no output layer is wanted.")) ∧
    (∀ cell vocab_size output_layer hparams,
      (vocab_size ≠ (none : Option Nat) ∨
        output_layer ≠ (none : Option OutputLayer)) →
      (∀ ol, output_layer = some ol →
        ol = OutputLayer.identity ∨ ol.isLayerInstance = true) →
      ∃ d, RNNDecoderBase.init cell vocab_size output_layer hparams =
        Except.ok d) := by
  constructor
  · intro cell hparams
    rfl
  · intro cell vocab_size output_layer hparams hprov hvalid
    match output_layer with
    | none =>
      match vocab_size with
      | none => simp at hprov
      | some v => exact ⟨_, rfl⟩
    | some ol =>
      rcases hvalid ol rfl with hid | hlayer
      · subst hid
        exact ⟨_, rfl⟩
      · by_cases hid : ol = OutputLayer.identity
        · subst hid
          exact ⟨_, rfl⟩
        · refine
            ⟨{ _hparams := hparams,
               _cell :=
                 match cell with
                 | some c => c
                 | none => layers.get_rnn_cell hparams.rnn_cell,
               _vocab_size := vocab_size, _output_layer := ol,
               _helper := none, _initial_state := none,
               _built := false }, ?_⟩
          simp [RNNDecoderBase.init, hid, hlayer]

/-- C1 witness: with `vocab_size = 7` and no output layer, construction
succeeds. -/
theorem C1_witness :
    ((some 7 : Option Nat) ≠ none ∨ (none : Option OutputLayer) ≠ none) ∧
    ∃ d, RNNDecoderBase.init none (some 7) none hp0 = Except.ok d :=
  ⟨Or.inl (by decide),
   C1_init_requires_output_layer_or_vocab.2 none (some 7) none hp0
     (Or.inl (by decide)) (by intro ol h; cases h)⟩

/-- C2: the `maximum_iterations` handed to `dynamic_decode` equals the
hyperparameter `max_decoding_length_train` when the global mode is training
and `max_decoding_length_infer` otherwise, each defaulting to
`utils.MAX_SEQ_LENGTH` when `None`; being a natural number, it is always a
finite bound. -/
theorem C2_maximum_iterations (d : RNNDecoderBase) (helper : Helper)
    (initial_state : Option CellState) (train : Bool) (d' : RNNDecoderBase)
    (out : DDOutputs × DDFinalState × DDSequenceLengths)
    (h : d.build helper initial_state train = Except.ok (d', out)) :
    out.fst.maximum_iterations =
      if train then
        Option.getD d._hparams.max_decoding_length_train utils.MAX_SEQ_LENGTH
      else
        Option.getD d._hparams.max_decoding_length_infer
          utils.MAX_SEQ_LENGTH := by
  obtain ⟨hp, c, vs, ol, hel, ist, b⟩ := d
  cases initial_state <;>
    simp [RNNDecoderBase.build, RNNDecoderBase.buildTail,
      RNNDecoderBase.batch_size, dynamic_decode] at h <;>
  · obtain ⟨-, hout⟩ := h
    subst hout
    cases hp using DecoderHParams.casesOn with
    | mk r ht hi mt mi nm =>
      cases train <;> cases mt <;> cases mi <;>
        simp [DDOutputs.maximum_iterations]

/-- C2 witness: building `d0` with `helper0`, no initial state, in training
mode, records `maximum_iterations = 2147483647 = utils.MAX_SEQ_LENGTH`. -/
theorem C2_witness :
    (dynamic_decode d2w 2147483647).fst.maximum_iterations =
      if true then
        Option.getD d0._hparams.max_decoding_length_train utils.MAX_SEQ_LENGTH
      else
        Option.getD d0._hparams.max_decoding_length_infer
          utils.MAX_SEQ_LENGTH :=
  C2_maximum_iterations d0 helper0 none true { d2w with _built := true }
    (dynamic_decode d2w 2147483647) (by rfl)

/-- C3: `_build` delegates decoding to `dynamic_decode` with the decoder
itself (its state at the moment of the call) as the `decoder` argument, and
returns exactly the `(outputs, final_state, sequence_lengths)` triple that
the loop produced. -/
theorem C3_build_delegates_to_dynamic_decode (d : RNNDecoderBase)
    (helper : Helper) (initial_state : Option CellState) (train : Bool) :
    (∃ d' out, d.build helper initial_state train = Except.ok (d', out)) ∧
    (∀ d' out, d.build helper initial_state train = Except.ok (d', out) →
      ∃ n, out = dynamic_decode { d' with _built := d._built } n) := by
  obtain ⟨hp, c, vs, ol, hel, ist, b⟩ := d
  constructor
  · cases initial_state <;> cases b <;>
      exact ⟨_, _, rfl⟩
  · intro d' out h
    cases initial_state <;> cases b <;>
      simp [RNNDecoderBase.build, RNNDecoderBase.buildTail,
        RNNDecoderBase.batch_size] at h <;>
    · obtain ⟨hd, hout⟩ := h
      subst hd
      subst hout
      exact ⟨_, rfl⟩

/-- C3 witness: at `d0`, `helper0`, no initial state, training mode. -/
theorem C3_witness :
    d0.build helper0 none true =
      Except.ok ({ d2w with _built := true }, dynamic_decode d2w 2147483647) ∧
    ∃ n, dynamic_decode d2w 2147483647 =
      dynamic_decode
        { { d2w with _built := true } with _built := d0._built } n :=
  ⟨by rfl,
   (C3_build_delegates_to_dynamic_decode d0 helper0 none true).2
     { d2w with _built := true } (dynamic_decode d2w 2147483647) (by rfl)⟩

/-- C4: if a `cell` argument is given, the `cell` property returns exactly
that object; otherwise the cell is built by `layers.get_rnn_cell` from the
`rnn_cell` hyperparameters. -/
theorem C4_cell_selection :
    (∀ c vocab_size output_layer hparams d,
      RNNDecoderBase.init (some c) vocab_size output_layer hparams =
        Except.ok d → d.cell = c) ∧
    (∀ vocab_size output_layer hparams d,
      RNNDecoderBase.init none vocab_size output_layer hparams =
        Except.ok d → d.cell = layers.get_rnn_cell hparams.rnn_cell) := by
  constructor
  · intro c vocab_size output_layer hparams d h
    match output_layer, vocab_size with
    | none, none => cases h
    | none, some v => cases h; rfl
    | some ol, vs =>
      by_cases hid : ol = OutputLayer.identity
      · subst hid; cases h; rfl
      · cases hl : ol.isLayerInstance with
        | true =>
          simp [RNNDecoderBase.init, hid, hl] at h
          simp [← h, RNNDecoderBase.cell]
        | false =>
          simp [RNNDecoderBase.init, hid, hl] at h
  · intro vocab_size output_layer hparams d h
    match output_layer, vocab_size with
    | none, none => cases h
    | none, some v => cases h; rfl
    | some ol, vs =>
      by_cases hid : ol = OutputLayer.identity
      · subst hid; cases h; rfl
      · cases hl : ol.isLayerInstance with
        | true =>
          simp [RNNDecoderBase.init, hid, hl] at h
          simp [← h, RNNDecoderBase.cell]
        | false =>
          simp [RNNDecoderBase.init, hid, hl] at h

/-- C4 witness: a given external cell is stored; with no cell argument the
cell comes from `layers.get_rnn_cell` on the hyperparameters. -/
theorem C4_witness :
    (∃ d, RNNDecoderBase.init (some (RNNCell.external 3)) (some 7) none hp0 =
      Except.ok d ∧ d.cell = RNNCell.external 3) := by
  refine ⟨_, rfl, ?_⟩
  exact C4_cell_selection.1 (RNNCell.external 3) (some 7) none hp0 _ rfl

/-- C5: with `output_layer = None` and a `vocab_size`, the stored output
layer is a Dense layer whose `units` equal `vocab_size`; a provided valid
`output_layer` is stored unchanged. -/
theorem C5_output_layer_construction :
    (∀ cell v hparams d,
      RNNDecoderBase.init cell (some v) none hparams = Except.ok d →
      d._output_layer = OutputLayer.dense v) ∧
    (∀ cell vocab_size ol hparams d,
      (ol = OutputLayer.identity ∨ ol.isLayerInstance = true) →
      RNNDecoderBase.init cell vocab_size (some ol) hparams = Except.ok d →
      d._output_layer = ol) := by
  constructor
  · intro cell v hparams d h
    cases h
    rfl
  · intro cell vocab_size ol hparams d hvalid h
    by_cases hid : ol = OutputLayer.identity
    · subst hid; cases h; rfl
    · rcases hvalid with hid2 | hl
      · exact absurd hid2 hid
      · simp [RNNDecoderBase.init, hid, hl] at h
        simp [← h]

/-- C5 witness: `vocab_size = 7` yields a Dense layer with 7 units; a given
non-Dense layer instance is stored unchanged. -/
theorem C5_witness :
    (∃ d, RNNDecoderBase.init none (some 7) none hp0 = Except.ok d ∧
      d._output_layer = OutputLayer.dense 7) := by
  refine ⟨_, rfl, ?_⟩
  exact C5_output_layer_construction.1 none 7 hp0 _ rfl

/-- C6: `default_hparams()` has exactly the keys "rnn_cell", "helper_train",
"helper_infer", "max_decoding_length_train", "max_decoding_length_infer" and
"name", with the two maximum lengths `None` and "name" equal to
"rnn_decoder". -/
theorem C6_default_hparams :
    RNNDecoderBase.default_hparams.map Prod.fst =
      ["rnn_cell", "helper_train", "helper_infer",
       "max_decoding_length_train", "max_decoding_length_infer", "name"] ∧
    List.lookup "max_decoding_length_train" RNNDecoderBase.default_hparams =
      some HValue.pyNone ∧
    List.lookup "max_decoding_length_infer" RNNDecoderBase.default_hparams =
      some HValue.pyNone ∧
    List.lookup "name" RNNDecoderBase.default_hparams =
      some (HValue.str "rnn_decoder") := by
  refine ⟨rfl, ?_, ?_, ?_⟩ <;> decide

/-- C7: the base class implements no decoding step: `initialize`, `step` and
`finalize`, and the `output_size` and `output_dtype` properties, always
raise `NotImplementedError`. -/
theorem C7_base_class_not_implemented (d : RNNDecoderBase)
    (nm : Option String) (t inp : Nat) (st : CellState) (o : DDOutputs)
    (fs : DDFinalState) (sl : DDSequenceLengths) :
    RNNDecoderBase.initialize d nm =
      Except.error PyError.notImplementedError ∧
    d.step t inp st nm = Except.error PyError.notImplementedError ∧
    d.finalize o fs sl = Except.error PyError.notImplementedError ∧
    d.output_size = Except.error PyError.notImplementedError ∧
    d.output_dtype = Except.error PyError.notImplementedError :=
  ⟨rfl, rfl, rfl, rfl, rfl⟩

/-- C8: a non-`None` `output_layer` that is neither `tf.identity` nor a
`Layer` instance makes the constructor raise `ValueError`; hence after every
successful construction the stored output layer is `tf.identity` or a
`Layer` instance. -/
theorem C8_output_layer_validity :
    (∀ cell vocab_size ol hparams,
      ol ≠ OutputLayer.identity → ol.isLayerInstance = false →
      RNNDecoderBase.init cell vocab_size (some ol) hparams =
        Except.error (PyError.valueError
          "`output_layer` must be either `tf.identity` or an instance of `tf.layers.Layer`.")) ∧
    (∀ cell vocab_size output_layer hparams d,
      RNNDecoderBase.init cell vocab_size output_layer hparams =
        Except.ok d →
      d._output_layer = OutputLayer.identity ∨
        d._output_layer.isLayerInstance = true) := by
  constructor
  · intro cell vocab_size ol hparams hid hl
    simp [RNNDecoderBase.init, hid, hl]
  · intro cell vocab_size output_layer hparams d h
    match output_layer, vocab_size with
    | none, none => cases h
    | none, some v => cases h; right; rfl
    | some ol, vs =>
      by_cases hid : ol = OutputLayer.identity
      · subst hid; cases h; left; rfl
      · cases hl : ol.isLayerInstance with
        | true =>
          simp [RNNDecoderBase.init, hid, hl] at h
          right
          simp [← h, hl]
        | false =>
          simp [RNNDecoderBase.init, hid, hl] at h

/-- C8 witness: a non-layer object is rejected; a successful construction
with `vocab_size = 7` stores a Layer instance. -/
theorem C8_witness :
    ((OutputLayer.nonLayer 5) ≠ OutputLayer.identity ∧
      (OutputLayer.nonLayer 5).isLayerInstance = false ∧
      RNNDecoderBase.init none (some 7) (some (OutputLayer.nonLayer 5)) hp0 =
        Except.error (PyError.valueError
          "`output_layer` must be either `tf.identity` or an instance of `tf.layers.Layer`.")) ∧
    (d0._output_layer = OutputLayer.identity ∨
      d0._output_layer.isLayerInstance = true) :=
  ⟨⟨by decide, by decide,
    C8_output_layer_validity.1 none (some 7) (OutputLayer.nonLayer 5) hp0
      (by decide) (by decide)⟩,
   C8_output_layer_validity.2 (some (RNNCell.external 0)) (some 7) none hp0
     d0 (by rfl)⟩

/-- C9: when `_build` is called with `initial_state = None`, the stored
initial state is the cell's zero state for the helper's batch size with
dtype float32; a given `initial_state` is stored unchanged; and
`zero_state` delegates to `cell.zero_state`. -/
theorem C9_initial_state (d : RNNDecoderBase) (helper : Helper)
    (train : Bool) :
    (∀ d' out, d.build helper none train = Except.ok (d', out) →
      d'._initial_state =
        some (RNNCell.zero_state d._cell helper.batch_size DType.float32)) ∧
    (∀ s d' out, d.build helper (some s) train = Except.ok (d', out) →
      d'._initial_state = some s) ∧
    (∀ bs dt, d.zero_state bs dt = RNNCell.zero_state d._cell bs dt) := by
  obtain ⟨hp, c, vs, ol, hel, ist, b⟩ := d
  refine ⟨?_, ?_, fun bs dt => rfl⟩
  · intro d' out h
    cases b <;>
      simp [RNNDecoderBase.build, RNNDecoderBase.buildTail,
        RNNDecoderBase.batch_size, RNNDecoderBase.zero_state] at h <;>
    · obtain ⟨hd, -⟩ := h
      simp [← hd, RNNCell.zero_state]
  · intro s d' out h
    cases b <;>
      simp [RNNDecoderBase.build, RNNDecoderBase.buildTail] at h <;>
    · obtain ⟨hd, -⟩ := h
      simp [← hd]

/-- C9 witness: at `d0`, `helper0`, training mode, the zero state for batch
size 4 is stored. -/
theorem C9_witness :
    ({ d2w with _built := true })._initial_state =
      some (RNNCell.zero_state d0._cell helper0.batch_size DType.float32) :=
  (C9_initial_state d0 helper0 true).1 { d2w with _built := true }
    (dynamic_decode d2w 2147483647) (by rfl)

/-- C10: right after construction the stored helper is `None`, so reading
`batch_size` raises; after `_build(helper, ...)` it equals
`helper.batch_size`. -/
theorem C10_batch_size :
    (∀ cell vocab_size output_layer hparams d,
      RNNDecoderBase.init cell vocab_size output_layer hparams =
        Except.ok d →
      RNNDecoderBase.batch_size d = Except.error PyError.attributeError) ∧
    (∀ d helper initial_state train d' out,
      RNNDecoderBase.build d helper initial_state train =
        Except.ok (d', out) →
      RNNDecoderBase.batch_size d' = Except.ok helper.batch_size) := by
  constructor
  · intro cell vocab_size output_layer hparams d h
    match output_layer, vocab_size with
    | none, none => cases h
    | none, some v => cases h; rfl
    | some ol, vs =>
      by_cases hid : ol = OutputLayer.identity
      · subst hid; cases h; rfl
      · cases hl : ol.isLayerInstance with
        | true =>
          simp [RNNDecoderBase.init, hid, hl] at h
          simp [← h, RNNDecoderBase.batch_size]
        | false =>
          simp [RNNDecoderBase.init, hid, hl] at h
  · intro d helper initial_state train d' out h
    obtain ⟨hp, c, vs, ol, hel, ist, b⟩ := d
    cases initial_state <;> cases b <;>
      simp [RNNDecoderBase.build, RNNDecoderBase.buildTail,
        RNNDecoderBase.batch_size] at h <;>
    · obtain ⟨hd, -⟩ := h
      simp [← hd, RNNDecoderBase.batch_size]

/-- C10 witness: `d0` (fresh from `init`) has no helper, so `batch_size`
errors; after `build` with `helper0` it is 4. -/
theorem C10_witness :
    RNNDecoderBase.batch_size d0 = Except.error PyError.attributeError ∧
    RNNDecoderBase.batch_size { d2w with _built := true } =
      Except.ok helper0.batch_size :=
  ⟨C10_batch_size.1 (some (RNNCell.external 0)) (some 7) none hp0 d0 (by rfl),
   C10_batch_size.2 d0 helper0 none true { d2w with _built := true }
     (dynamic_decode d2w 2147483647) (by rfl)⟩

end Texar
